import Mathlib

/-
Verification of the freelan core against its design specification.

Embedded source files:
  * src/src/switch.cpp            — the Ethernet hub / learning switch
  * src/src/internal/fscp/socket.hpp — the FSCP socket skeleton (async_greet,
    get_endpoint_context_for)

Machine integers are modelled as Nat with explicit reductions modulo 2 ^ w
where the source wraps; fallible operations (failed C assertions, operations
the source cannot complete) return Option.
-/

namespace Freelan

/-! ## Generic std::map model

`std::map<K, V>` is modelled as an association list with unique keys.
`mapAssign` models `m[k] = v` (insert-or-overwrite), `mapFind` models
`m.find(k)`, and `mapIndex` models `m[k]` with default-construction of a
missing entry (the value `d` stands for the value-initialised `V()`).
-/

def mapAssign {α β : Type} [DecidableEq α] (m : List (α × β)) (k : α) (v : β) :
    List (α × β) :=
  match m with
  | [] => [(k, v)]
  | (k₀, v₀) :: rest =>
      if k₀ = k then (k, v) :: rest else (k₀, v₀) :: mapAssign rest k v

def mapFind {α β : Type} [DecidableEq α] (m : List (α × β)) (k : α) : Option β :=
  match m with
  | [] => none
  | (k₀, v₀) :: rest => if k₀ = k then some v₀ else mapFind rest k

def mapIndex {α β : Type} [DecidableEq α] (m : List (α × β)) (k : α) (d : β) :
    β × List (α × β) :=
  match m with
  | [] => (d, [(k, d)])
  | (k₀, v₀) :: rest =>
      if k₀ = k then (v₀, (k₀, v₀) :: rest)
      else
        let r := mapIndex rest k d
        (r.1, (k₀, v₀) :: r.2)

/-- Keys of an association-list map. -/
def mapKeys {α β : Type} (m : List (α × β)) : List α := m.map Prod.fst

/-- The `std::map` representation invariant: every key occurs at most once. -/
abbrev NodupKeys {α β : Type} (m : List (α × β)) : Prop := (mapKeys m).Nodup

/-! ## The Ethernet switch (src/src/switch.cpp) -/

abbrev Byte := Nat

/-- `ethernet_address_type::static_size` (a 6-byte MAC address). -/
def ethernet_address_static_size : Nat := 6

/-- `ethernet_address_type`: a byte array holding a MAC address. -/
abbrev ethernet_address_type := List Byte

/-- `port_type` is a smart pointer to a port; `0` models the null pointer
(checked by `assert(port)` in `receive_data`). -/
abbrev port_type := Nat

/-- `configuration::routing_method_type`, the values used by `switch_`. -/
inductive routing_method_type where
  | RM_HUB
  | RM_SWITCH
deriving DecidableEq, Repr

/-- The mutable state of `switch_`: the fixed routing method, the port list
and the learned `m_ethernet_address_map`. -/
structure switch_ where
  m_routing_method : routing_method_type
  m_ports : List port_type
  m_ethernet_address_map : List (ethernet_address_type × port_type)
deriving DecidableEq, Repr

/-- `asiotap::osi::const_helper<ethernet_frame>::target()` — the destination
MAC address: the first 6 bytes of the frame (external asiotap library;
standard Ethernet layout, as in the spec: "6-byte destination, 6-byte
source, remaining payload"). Buffer slicing clamps, as boost buffer
arithmetic does. -/
def ethernet_helper_target (data : List Byte) : List Byte :=
  data.take ethernet_address_static_size

/-- `asiotap::osi::const_helper<ethernet_frame>::sender()` — the source MAC
address: bytes 6 to 11 of the frame. -/
def ethernet_helper_sender (data : List Byte) : List Byte :=
  (data.drop ethernet_address_static_size).take ethernet_address_static_size

/-- `switch_::to_ethernet_address`: asserts the buffer size equals
`static_size`, then `memcpy`s `static_size` bytes into the result. A failed
assertion is modelled as `none`. -/
def to_ethernet_address (buf : List Byte) : Option ethernet_address_type :=
  if buf.length = ethernet_address_static_size then
    some (buf.take ethernet_address_static_size)
  else
    none

/-- A frame written to a port: `send_data_to(port, data)` does
`port->write(data)`; outputs are collected as `(port, data)` pairs. -/
abbrev output_type := port_type × List Byte

/-- `switch_::send_data_from`: writes `data` to every port of `m_ports`
other than `source_port`. -/
def send_data_from (s : switch_) (source_port : port_type) (data : List Byte) :
    List output_type :=
  (s.m_ports.filter (fun port => decide (source_port ≠ port))).map
    (fun port => (port, data))

/-- The state after `m_ethernet_address_map[sender_address] = port`. -/
def switch_learned (s : switch_) (sender_address : ethernet_address_type)
    (port : port_type) : switch_ :=
  { s with m_ethernet_address_map :=
      mapAssign s.m_ethernet_address_map sender_address port }

/-- `switch_::receive_data`: asserts `port` is non-null; in `RM_HUB` mode
floods via `send_data_from`; in `RM_SWITCH` mode converts the sender address
(assertion inside `to_ethernet_address`), assigns
`m_ethernet_address_map[sender] = port`, converts the target address and
looks it up — both the found branch (`if (target_entry != ...end())`) and
the not-found fallthrough are unimplemented in the source
(`TODO: Implement`), so the lookup is dead and no frame is written.
Returns the new state and the list of `(port, frame)` writes, or `none` when
an assertion fails. -/
def receive_data (s : switch_) (port : port_type) (data : List Byte) :
    Option (switch_ × List output_type) :=
  if port = 0 then none
  else
    match s.m_routing_method with
    | .RM_HUB => some (s, send_data_from s port data)
    | .RM_SWITCH =>
        match to_ethernet_address (ethernet_helper_sender data) with
        | none => none
        | some sender_address =>
            match to_ethernet_address (ethernet_helper_target data) with
            | none => none
            | some target =>
                if (mapFind (switch_learned s sender_address
                    port).m_ethernet_address_map target).isSome then
                  some (switch_learned s sender_address port, [])
                else
                  some (switch_learned s sender_address port, [])

/-! ## Concrete instances used as test inputs -/

def macA : ethernet_address_type := [170, 0, 0, 0, 0, 1]

def macB : ethernet_address_type := [187, 0, 0, 0, 0, 2]

/-- A switch in SWITCH mode with ports 1 and 2 that has already learned
that `macA` lives behind port 1. -/
def switch_example : switch_ :=
  { m_routing_method := .RM_SWITCH
    m_ports := [1, 2]
    m_ethernet_address_map := [(macA, 1)] }

/-- A hub-mode switch with ports 1 and 2 and an empty address table. -/
def hub_example : switch_ :=
  { m_routing_method := .RM_HUB
    m_ports := [1, 2]
    m_ethernet_address_map := [] }

/-- A well-formed 14-byte Ethernet frame from `macB` to `macA`
(destination, source, EtherType). -/
def frame_to_macA : List Byte := macA ++ macB ++ [8, 0]

/-! ## Claim theorems for the switch -/

/-- C1: the claim says a SWITCH-mode frame whose destination is in the table
is forwarded to the mapped port. The source looks the destination up but
both forwarding branches are `TODO: Implement`: at the failing input — a
frame destined to `macA` (mapped to port 1) arriving on port 2 — the code
learns the sender and writes the frame to no port at all. -/
theorem receive_data_switch_mode_forwards_nothing :
    receive_data switch_example 2 frame_to_macA =
      some ({ switch_example with
                m_ethernet_address_map := [(macA, 1), (macB, 2)] }, []) ∧
    mapFind switch_example.m_ethernet_address_map
      (ethernet_helper_target frame_to_macA) = some 1 := by
  constructor <;> rfl

/-- C3: in HUB mode `receive_data` forwards the frame unmodified to every
port except the source port and leaves the whole state — in particular
`m_ethernet_address_map` — unchanged. -/
theorem receive_data_hub_mode_floods (s : switch_) (port : port_type)
    (data : List Byte) (hm : s.m_routing_method = .RM_HUB) (hp : port ≠ 0) :
    receive_data s port data =
      some (s, (s.m_ports.filter (fun q => decide (port ≠ q))).map
        (fun q => (q, data))) := by
  unfold receive_data send_data_from
  simp [hp, hm]

/-- C3 witness: concrete flood on the hub instance. -/
theorem receive_data_hub_mode_floods_witness :
    receive_data hub_example 1 frame_to_macA =
      some (hub_example, (hub_example.m_ports.filter (fun q => decide (1 ≠ q))).map
        (fun q => (q, frame_to_macA))) :=
  receive_data_hub_mode_floods hub_example 1 frame_to_macA rfl (by decide)

/-- C4 counterexample: a 3-byte frame — far below the minimum Ethernet
header length — received in HUB mode is flooded to port 2, not rejected
(`receive_data` has no length check and no error path at all). -/
theorem short_frame_is_forwarded :
    receive_data hub_example 1 [7, 8, 9] =
      some (hub_example, [(2, [7, 8, 9])]) := rfl

/-- C4 amended: `receive_data` performs no frame-length validation and has
no `MalformedFrame` error: in HUB mode a frame shorter than the minimum
Ethernet header length is still flooded to every port except the source
port, and in SWITCH mode a frame too short to carry a 6-byte source address
fails the `to_ethernet_address` assertion instead of returning an error. -/
theorem receive_data_no_length_validation (s : switch_) (port : port_type)
    (data : List Byte) (hp : port ≠ 0) (hshort : data.length < 14) :
    (s.m_routing_method = .RM_HUB →
      receive_data s port data = some (s, send_data_from s port data)) ∧
    (s.m_routing_method = .RM_SWITCH → data.length < 12 →
      receive_data s port data = none) := by
  constructor
  · intro hm
    unfold receive_data
    simp [hp, hm]
  · intro hm hlen
    have hsender : (ethernet_helper_sender data).length = min 6 (data.length - 6) := by
      simp [ethernet_helper_sender, ethernet_address_static_size]
    have hne : (ethernet_helper_sender data).length ≠ ethernet_address_static_size := by
      unfold ethernet_address_static_size
      omega
    have hnone : to_ethernet_address (ethernet_helper_sender data) = none := by
      unfold to_ethernet_address
      rw [if_neg hne]
    unfold receive_data
    simp [hp, hm, hnone]

/-- C4 witness: the amended statement at the concrete short frame. -/
theorem receive_data_no_length_validation_witness :
    receive_data hub_example 1 [7, 8, 9] =
      some (hub_example, send_data_from hub_example 1 [7, 8, 9]) :=
  (receive_data_no_length_validation hub_example 1 [7, 8, 9] (by decide)
      (by decide)).1 rfl

/-! ## Map lemmas for the learning invariant -/

theorem mapFind_mapAssign_self {α β : Type} [DecidableEq α]
    (m : List (α × β)) (k : α) (v : β) :
    mapFind (mapAssign m k v) k = some v := by
  induction m with
  | nil => simp [mapAssign, mapFind]
  | cons hd tl ih =>
      obtain ⟨k₀, v₀⟩ := hd
      by_cases h : k₀ = k
      · simp [mapAssign, mapFind, h]
      · simp [mapAssign, mapFind, h, ih]

theorem mapAssign_idem {α β : Type} [DecidableEq α]
    (m : List (α × β)) (k : α) (v : β) :
    mapAssign (mapAssign m k v) k v = mapAssign m k v := by
  induction m with
  | nil => simp [mapAssign]
  | cons hd tl ih =>
      obtain ⟨k₀, v₀⟩ := hd
      by_cases h : k₀ = k
      · simp [mapAssign, h]
      · simp [mapAssign, h, ih]

theorem mapKeys_mapAssign {α β : Type} [DecidableEq α]
    (m : List (α × β)) (k : α) (v : β) :
    mapKeys (mapAssign m k v) =
      if k ∈ mapKeys m then mapKeys m else mapKeys m ++ [k] := by
  induction m with
  | nil => simp [mapAssign, mapKeys]
  | cons hd tl ih =>
      obtain ⟨k₀, v₀⟩ := hd
      by_cases h : k₀ = k
      · subst h
        simp [mapAssign, mapKeys]
      · have hne : k ≠ k₀ := fun hk => h hk.symm
        simp only [mapAssign, if_neg h, mapKeys, List.map_cons] at ih ⊢
        rw [ih]
        by_cases hmem : k ∈ List.map Prod.fst tl
        · simp [hmem, List.mem_cons, hne]
        · simp [hmem, List.mem_cons, hne]

theorem nodupKeys_mapAssign {α β : Type} [DecidableEq α]
    (m : List (α × β)) (k : α) (v : β) (h : NodupKeys m) :
    NodupKeys (mapAssign m k v) := by
  unfold NodupKeys at h ⊢
  rw [mapKeys_mapAssign]
  by_cases hmem : k ∈ mapKeys m
  · simpa [hmem] using h
  · simp only [hmem, if_false]
    simpa [List.nodup_append] using ⟨h, hmem⟩

/-- C5: in SWITCH mode every (assertion-passing) call to `receive_data`
assigns `m_ethernet_address_map[sender] = port` with overwrite semantics:
afterwards the sender address maps to the arrival port, repeating the same
write is idempotent, and key-uniqueness of the table is preserved, so each
address maps to at most one port. -/
theorem receive_data_switch_mode_learns (s : switch_) (port : port_type)
    (data : List Byte) (hm : s.m_routing_method = .RM_SWITCH) (hp : port ≠ 0)
    (hlen : 12 ≤ data.length) (hnd : NodupKeys s.m_ethernet_address_map) :
    receive_data s port data =
      some (switch_learned s (ethernet_helper_sender data) port, []) ∧
    mapFind (switch_learned s (ethernet_helper_sender data)
        port).m_ethernet_address_map (ethernet_helper_sender data) = some port ∧
    switch_learned (switch_learned s (ethernet_helper_sender data) port)
        (ethernet_helper_sender data) port =
      switch_learned s (ethernet_helper_sender data) port ∧
    NodupKeys (switch_learned s (ethernet_helper_sender data)
        port).m_ethernet_address_map := by
  have hsender : (ethernet_helper_sender data).length =
      ethernet_address_static_size := by
    simp [ethernet_helper_sender, ethernet_address_static_size]
    omega
  have htarget : (ethernet_helper_target data).length =
      ethernet_address_static_size := by
    simp [ethernet_helper_target, ethernet_address_static_size]
    omega
  refine ⟨?_, mapFind_mapAssign_self _ _ _, ?_, nodupKeys_mapAssign _ _ _ hnd⟩
  · have hs : to_ethernet_address (ethernet_helper_sender data) =
        some (ethernet_helper_sender data) := by
      unfold to_ethernet_address
      rw [if_pos hsender, List.take_of_length_le (le_of_eq hsender)]
    have ht : to_ethernet_address (ethernet_helper_target data) =
        some (ethernet_helper_target data) := by
      unfold to_ethernet_address
      rw [if_pos htarget, List.take_of_length_le (le_of_eq htarget)]
    unfold receive_data
    simp [hp, hm, hs, ht]
  · unfold switch_learned
    simp [mapAssign_idem]

/-- C5 witness: the learning behaviour on the concrete SWITCH instance. -/
theorem receive_data_switch_mode_learns_witness :
    receive_data switch_example 2 frame_to_macA =
      some (switch_learned switch_example (ethernet_helper_sender frame_to_macA)
        2, []) ∧
    mapFind (switch_learned switch_example (ethernet_helper_sender frame_to_macA)
        2).m_ethernet_address_map (ethernet_helper_sender frame_to_macA) =
      some 2 ∧
    switch_learned (switch_learned switch_example
        (ethernet_helper_sender frame_to_macA) 2)
        (ethernet_helper_sender frame_to_macA) 2 =
      switch_learned switch_example (ethernet_helper_sender frame_to_macA) 2 ∧
    NodupKeys (switch_learned switch_example
        (ethernet_helper_sender frame_to_macA) 2).m_ethernet_address_map :=
  receive_data_switch_mode_learns switch_example 2 frame_to_macA rfl
    (by decide) (by decide) (by decide)

/-- Frames written by `send_data_from` never target the source port. -/
theorem send_data_from_not_source (s : switch_) (source_port : port_type)
    (data : List Byte) (p : port_type) (f : List Byte)
    (hmem : (p, f) ∈ send_data_from s source_port data) : p ≠ source_port := by
  unfold send_data_from at hmem
  simp only [List.mem_map, List.mem_filter, Prod.mk.injEq,
    decide_eq_true_eq] at hmem
  obtain ⟨q, ⟨-, hq⟩, hqp, -⟩ := hmem
  subst hqp
  exact Ne.symm hq

/-- C6: in both modes, whenever `receive_data` succeeds, no output write
targets the source port: a frame is never reflected back to its origin. -/
theorem receive_data_never_reflects (s : switch_) (port : port_type)
    (data : List Byte) (s₂ : switch_) (outs : List output_type)
    (h : receive_data s port data = some (s₂, outs)) :
    ∀ p f, (p, f) ∈ outs → p ≠ port := by
  intro p f hmem
  unfold receive_data at h
  split at h
  · simp at h
  · split at h
    · simp only [Option.some.injEq, Prod.mk.injEq] at h
      obtain ⟨-, houts⟩ := h
      subst houts
      exact send_data_from_not_source s port data p f hmem
    · split at h
      · simp at h
      · split at h
        · simp at h
        · split at h <;>
          · simp only [Option.some.injEq, Prod.mk.injEq] at h
            obtain ⟨-, houts⟩ := h
            subst houts
            simp at hmem

/-- C6 witness: the invariant at the concrete hub instance — the one write
the flood produces goes to port 2, not back to source port 1. -/
theorem receive_data_never_reflects_witness :
    ((2, [7, 8, 9]) : output_type) ∈ [((2, [7, 8, 9]) : output_type)] ∧
    (2 : port_type) ≠ 1 :=
  ⟨by simp,
   receive_data_never_reflects hub_example 1 [7, 8, 9] hub_example
     [(2, [7, 8, 9])] rfl 2 [7, 8, 9] (by simp)⟩

/-- C10: under the asserted precondition — a buffer whose size is exactly
the 6-byte static size of an Ethernet address — `to_ethernet_address`
returns the address whose bytes equal the buffer's bytes in order: the
`static_size`-byte copy reads exactly the bytes the buffer holds. -/
theorem to_ethernet_address_copies_exactly (buf : List Byte)
    (h : buf.length = ethernet_address_static_size) :
    to_ethernet_address buf = some buf := by
  unfold to_ethernet_address
  rw [if_pos h, List.take_of_length_le (le_of_eq h)]

/-- C10 witness: the copy at a concrete 6-byte buffer. -/
theorem to_ethernet_address_copies_exactly_witness :
    to_ethernet_address [1, 2, 3, 4, 5, 6] = some [1, 2, 3, 4, 5, 6] :=
  to_ethernet_address_copies_exactly [1, 2, 3, 4, 5, 6] rfl

/-! ## The FSCP socket (src/src/internal/fscp/socket.hpp) -/

/-- `Socket::Endpoint` (a UDP address), an opaque totally ordered key. -/
abbrev Endpoint := Nat

/-- Modelled from the spec: `EndpointContext` — its header
`endpoint_context.hpp` is included by socket.hpp but is not among the
sources; only its caller `Socket::async_greet` is. Per the spec it carries
`next_hello_number`: a "monotonically increasing 32-bit counter, unique per
generated HELLO request", which "wraps on overflow". -/
structure EndpointContext where
  next_hello_number : Nat
deriving DecidableEq, Repr

/-- The value-initialised `EndpointContext()` that `std::map::operator[]`
creates on first access: the counter starts at 0. -/
def EndpointContext.default : EndpointContext := { next_hello_number := 0 }

/-- Modelled from the spec: `EndpointContext::get_next_hello_request_number`
(missing with its header) hands out the fresh request number and advances
the 32-bit counter, wrapping modulo 2 ^ 32 on overflow. -/
def get_next_hello_request_number (c : EndpointContext) :
    Nat × EndpointContext :=
  (c.next_hello_number,
   { next_hello_number := (c.next_hello_number + 1) % 2 ^ 32 })

/-- The HELLO-request message type discriminant (spec wire format: a 1-byte
message-type discriminant comes first). -/
def MESSAGE_TYPE_HELLO_REQUEST : Byte := 0

/-- Modelled from the spec: the HELLO-request wire encoding produced by
`write_fscp_hello_request_message` (declared in the missing `message.hpp`):
the 1-byte type discriminant followed by the 4-byte big-endian request
number. -/
def fscp_hello_request_bytes (unique_number : Nat) : List Byte :=
  [MESSAGE_TYPE_HELLO_REQUEST,
   unique_number / 2 ^ 24 % 2 ^ 8, unique_number / 2 ^ 16 % 2 ^ 8,
   unique_number / 2 ^ 8 % 2 ^ 8, unique_number % 2 ^ 8]

/-- Modelled from the spec: `write_fscp_hello_request_message(buf, buf_len,
unique_number)`. Called with a null buffer (`none`) it writes nothing and
returns the required byte count; with a buffer at least that large it writes
the encoding in place and returns the same count; with a too-small buffer it
writes nothing and returns 0. -/
def write_fscp_hello_request_message (buf : Option (List Byte)) (buf_len : Nat)
    (unique_number : Nat) : Nat × Option (List Byte) :=
  match buf with
  | none => ((fscp_hello_request_bytes unique_number).length, none)
  | some b =>
      if (fscp_hello_request_bytes unique_number).length ≤ buf_len then
        ((fscp_hello_request_bytes unique_number).length,
         some (fscp_hello_request_bytes unique_number ++
           b.drop (fscp_hello_request_bytes unique_number).length))
      else
        (0, some b)

/-- `Socket`: the embedded state is the endpoint-context map
`m_endpoint_contexts` (the underlying UDP socket `m_socket` is an external
collaborator). -/
structure Socket where
  m_endpoint_contexts : List (Endpoint × EndpointContext)
deriving DecidableEq, Repr

/-- `Socket::get_endpoint_context_for`: `return m_endpoint_contexts[endpoint]`
— `std::map::operator[]` returns the stored context, default-constructing
one on the first access to a missing key. Returns the context together with
the possibly-extended socket state. -/
def get_endpoint_context_for (s : Socket) (endpoint : Endpoint) :
    EndpointContext × Socket :=
  let r := mapIndex s.m_endpoint_contexts endpoint EndpointContext.default
  (r.1, Socket.mk r.2)

/-- How the completion handler given to `async_greet` gets invoked. -/
inductive CompletionTrigger where
  | on_send_complete
  | on_matching_hello_response
  | on_timeout
deriving DecidableEq, Repr

/-- Observable effects of one `async_greet` call: the allocated request
number, the probed required size, the bytes of the transmit buffer handed
to `m_socket.async_send_to` (a value-initialised `std::vector<char>` — the
source never serialises the HELLO into it), the response waits registered
(none, in the source), and the event that invokes the completion handler. -/
structure GreetEffect where
  unique_number : Nat
  required_size : Nat
  sent_buffer : List Byte
  response_waits : List (Endpoint × Nat)
  completion_trigger : CompletionTrigger
deriving DecidableEq, Repr

/-- `Socket::async_greet`: fetches (creating if needed) the destination's
context, draws `unique_number` from it, probes `required_size` with a null
buffer, asserts it non-zero (`none` models the failed assertion), allocates
a zero-filled vector of that size and hands it to `m_socket.async_send_to`
with a lambda that invokes `handler(ec, bytes_transferred)` as soon as the
send completes. No response wait keyed by the request number is registered,
no retransmission or timeout is armed, and the HELLO message is never
written into the buffer before it is sent. -/
def async_greet (s : Socket) (destination : Endpoint) :
    Option (Socket × GreetEffect) :=
  let c := get_endpoint_context_for s destination
  let n := get_next_hello_request_number c.1
  let required_size := (write_fscp_hello_request_message none 0 n.1).1
  if required_size = 0 then none
  else
    some (Socket.mk (mapAssign c.2.m_endpoint_contexts destination n.2),
          GreetEffect.mk n.1 required_size (List.replicate required_size 0)
            [] CompletionTrigger.on_send_complete)

/-! ## Claim theorems for the socket -/

/-- C2: the claim says `async_greet` completes only when a HELLO-response
bearing the same request number arrives, or with `Timeout`. At the failing
input the source instead invokes the completion handler on send completion:
it registers no response wait for the allocated request number, arms no
retransmission or timeout, and even hands the transport a zero-filled
buffer that the HELLO encoding was never written into. -/
theorem async_greet_completes_on_send :
    async_greet (Socket.mk []) 7 =
      some (Socket.mk [(7, EndpointContext.mk 1)],
            GreetEffect.mk 0 5 [0, 0, 0, 0, 0] []
              CompletionTrigger.on_send_complete) := rfl

/-- C7 (modelled from the spec): consecutive generated HELLO request
numbers: the second equals the first plus one reduced modulo 2 ^ 32, is
strictly greater whenever no wrap occurs, is never equal to the first, and
wraps to 0 exactly from 2 ^ 32 - 1. -/
theorem next_hello_number_monotone (c : EndpointContext)
    (h : c.next_hello_number < 2 ^ 32) :
    (get_next_hello_request_number (get_next_hello_request_number c).2).1 =
      ((get_next_hello_request_number c).1 + 1) % 2 ^ 32 ∧
    ((get_next_hello_request_number c).1 + 1 < 2 ^ 32 →
      (get_next_hello_request_number c).1 <
        (get_next_hello_request_number (get_next_hello_request_number c).2).1) ∧
    (get_next_hello_request_number (get_next_hello_request_number c).2).1 ≠
      (get_next_hello_request_number c).1 ∧
    ((get_next_hello_request_number c).1 = 2 ^ 32 - 1 →
      (get_next_hello_request_number
        (get_next_hello_request_number c).2).1 = 0) := by
  obtain ⟨n⟩ := c
  have h₂ : n < 2 ^ 32 := h
  refine ⟨rfl, ?_, ?_, ?_⟩
  · show n + 1 < 2 ^ 32 → n < (n + 1) % 2 ^ 32
    omega
  · show (n + 1) % 2 ^ 32 ≠ n
    omega
  · show n = 2 ^ 32 - 1 → (n + 1) % 2 ^ 32 = 0
    omega

/-- C7 witness: the counter behaviour starting from the value 5. -/
theorem next_hello_number_monotone_witness :
    (get_next_hello_request_number
        (get_next_hello_request_number (EndpointContext.mk 5)).2).1 =
      ((get_next_hello_request_number (EndpointContext.mk 5)).1 + 1) % 2 ^ 32 ∧
    ((get_next_hello_request_number (EndpointContext.mk 5)).1 + 1 < 2 ^ 32 →
      (get_next_hello_request_number (EndpointContext.mk 5)).1 <
        (get_next_hello_request_number
          (get_next_hello_request_number (EndpointContext.mk 5)).2).1) ∧
    (get_next_hello_request_number
        (get_next_hello_request_number (EndpointContext.mk 5)).2).1 ≠
      (get_next_hello_request_number (EndpointContext.mk 5)).1 ∧
    ((get_next_hello_request_number (EndpointContext.mk 5)).1 = 2 ^ 32 - 1 →
      (get_next_hello_request_number
        (get_next_hello_request_number (EndpointContext.mk 5)).2).1 = 0) :=
  next_hello_number_monotone (EndpointContext.mk 5) (by norm_num)

/-- C8 (modelled from the spec): the null-buffer probe of
`write_fscp_hello_request_message` returns exactly the byte count the real
encoding requires — writing into a buffer allocated at exactly the probed
size succeeds and fills it exactly with the encoding — and the probed size
is non-zero, as `async_greet` asserts. -/
theorem write_hello_null_probe_exact (unique_number : Nat) :
    (write_fscp_hello_request_message none 0 unique_number).1 =
      (fscp_hello_request_bytes unique_number).length ∧
    (write_fscp_hello_request_message
        (some (List.replicate
          (write_fscp_hello_request_message none 0 unique_number).1 0))
        (write_fscp_hello_request_message none 0 unique_number).1
        unique_number).2 =
      some (fscp_hello_request_bytes unique_number) ∧
    (write_fscp_hello_request_message none 0 unique_number).1 ≠ 0 := by
  refine ⟨rfl, ?_, by simp [write_fscp_hello_request_message,
    fscp_hello_request_bytes]⟩
  simp [write_fscp_hello_request_message, fscp_hello_request_bytes]

/-! ## Map-index lemmas for the endpoint-context map -/

theorem mapIndex_of_find_none {α β : Type} [DecidableEq α]
    (m : List (α × β)) (k : α) (d : β) (h : mapFind m k = none) :
    mapIndex m k d = (d, m ++ [(k, d)]) := by
  induction m with
  | nil => simp [mapIndex]
  | cons hd tl ih =>
      obtain ⟨k₀, v₀⟩ := hd
      by_cases hk : k₀ = k
      · simp [mapFind, hk] at h
      · simp only [mapFind, if_neg hk] at h
        simp [mapIndex, hk, ih h]

theorem mapIndex_of_find_some {α β : Type} [DecidableEq α]
    (m : List (α × β)) (k : α) (d v : β) (h : mapFind m k = some v) :
    mapIndex m k d = (v, m) := by
  induction m with
  | nil => simp [mapFind] at h
  | cons hd tl ih =>
      obtain ⟨k₀, v₀⟩ := hd
      by_cases hk : k₀ = k
      · simp only [mapFind, if_pos hk, Option.some.injEq] at h
        simp [mapIndex, hk, h]
      · simp only [mapFind, if_neg hk] at h
        simp [mapIndex, hk, ih h]

theorem mapFind_append_single {α β : Type} [DecidableEq α]
    (m : List (α × β)) (k : α) (d : β) (h : mapFind m k = none) :
    mapFind (m ++ [(k, d)]) k = some d := by
  induction m with
  | nil => simp [mapFind]
  | cons hd tl ih =>
      obtain ⟨k₀, v₀⟩ := hd
      by_cases hk : k₀ = k
      · simp [mapFind, hk] at h
      · simp only [mapFind, if_neg hk] at h
        simp only [List.cons_append, mapFind, if_neg hk]
        exact ih h

theorem mapFind_mapIndex {α β : Type} [DecidableEq α]
    (m : List (α × β)) (k : α) (d : β) :
    mapFind (mapIndex m k d).2 k = some (mapIndex m k d).1 := by
  cases h : mapFind m k with
  | none =>
      rw [mapIndex_of_find_none m k d h]
      exact mapFind_append_single m k d h
  | some v =>
      rw [mapIndex_of_find_some m k d v h]
      exact h

/-- C9: `get_endpoint_context_for` creates an `EndpointContext` lazily: a
second call with the same endpoint returns the same context and leaves the
socket state unchanged, and when the endpoint was absent the first call
appends exactly one default-constructed context for it and returns that
context. -/
theorem get_endpoint_context_for_lazy (s : Socket) (endpoint : Endpoint) :
    (get_endpoint_context_for
        (get_endpoint_context_for s endpoint).2 endpoint).1 =
      (get_endpoint_context_for s endpoint).1 ∧
    (get_endpoint_context_for
        (get_endpoint_context_for s endpoint).2 endpoint).2 =
      (get_endpoint_context_for s endpoint).2 ∧
    (mapFind s.m_endpoint_contexts endpoint = none →
      (get_endpoint_context_for s endpoint).2.m_endpoint_contexts =
        s.m_endpoint_contexts ++ [(endpoint, EndpointContext.default)] ∧
      (get_endpoint_context_for s endpoint).1 = EndpointContext.default) := by
  have hfind := mapFind_mapIndex s.m_endpoint_contexts endpoint
    EndpointContext.default
  have hsecond := mapIndex_of_find_some
    (mapIndex s.m_endpoint_contexts endpoint EndpointContext.default).2
    endpoint EndpointContext.default
    (mapIndex s.m_endpoint_contexts endpoint EndpointContext.default).1 hfind
  refine ⟨?_, ?_, ?_⟩
  · simp only [get_endpoint_context_for, hsecond]
  · simp only [get_endpoint_context_for, hsecond]
  · intro habsent
    rw [show get_endpoint_context_for s endpoint =
      ((mapIndex s.m_endpoint_contexts endpoint EndpointContext.default).1,
       Socket.mk (mapIndex s.m_endpoint_contexts endpoint
         EndpointContext.default).2) from rfl]
    rw [mapIndex_of_find_none s.m_endpoint_contexts endpoint
      EndpointContext.default habsent]
    exact ⟨rfl, rfl⟩

/-- C9 witness: the lazy-creation contract on an initially empty socket. -/
theorem get_endpoint_context_for_lazy_witness :
    (get_endpoint_context_for
        (get_endpoint_context_for (Socket.mk []) 3).2 3).1 =
      (get_endpoint_context_for (Socket.mk []) 3).1 ∧
    (get_endpoint_context_for (Socket.mk []) 3).2.m_endpoint_contexts =
      [] ++ [(3, EndpointContext.default)] :=
  ⟨(get_endpoint_context_for_lazy (Socket.mk []) 3).1,
   ((get_endpoint_context_for_lazy (Socket.mk []) 3).2.2 rfl).1⟩

end Freelan
